import Mathlib

/-!
Shallow embedding of the virtual serial network engine of
nts.hardware.serial (src/nts/hardware/serial/virtual): the worker
functions of worker.py (forward_data, generate_virtual_ports,
add_external_ports, remove_ports) and the controller
VirtualSerialNetwork / VirtualSerialPair of
virtual_serial_network.py / virtual_serial_pair.py.

Modelling conventions:
- Python dicts are association lists in insertion order (Python 3.7+
  iteration order); dict assignment updates in place or appends.
- OS effects are oracles: openpty-style factories are
  Nat -> Option (fd, slave_name) indexed by invocation number within a
  call (none models an exception anywhere in the try block before the
  registry is mutated); Serial opening is String -> Option fd; write and
  close success are Bool-valued oracles. selector.register raises when
  the fd is already registered, selector.unregister when it is not;
  both are modelled explicitly.
- Python set objects iterate in unspecified order; list(set(xs)) is
  modelled as List.dedup, a fixed representative of the same underlying
  set. All proved properties about set-built lists are order-insensitive
  (lengths, counts, membership, duplicate-freeness).
- Bytes are List Nat; a file object is its fd plus the byte sequence
  written to it so far.
-/

namespace NtsHardwareSerial

/-! ## Worker data plane: forward_data (worker.py lines 111-124) -/

/-- A registered file object of the worker: its descriptor and the
bytes that have been written to it by the forwarding loop. -/
structure PortFile where
  fd : Nat
  written : List Nat
deriving DecidableEq, Repr

/-- The write loop of forward_data for one ready descriptor: iterate
master_files in registry order; attempt a write to every file except
the source (or to all of them under loopback). A failing write raises,
and because the except clause of forward_data encloses the whole loop,
the iteration stops there: files later in registry order are left
untouched. -/
def forwardWrites (keyFd : Nat) (data : List Nat) (loopback : Bool)
    (writeOk : Nat → Bool) : List PortFile → List PortFile
  | [] => []
  | f :: rest =>
    if loopback || f.fd != keyFd then
      if writeOk f.fd then
        { f with written := f.written ++ data }
          :: forwardWrites keyFd data loopback writeOk rest
      else
        f :: rest
    else
      f :: forwardWrites keyFd data loopback writeOk rest

/-- One readiness event of forward_data: read from the ready
descriptor (none models a read that raises, which the except clause
swallows leaving every file untouched), then broadcast the data. -/
def forward_event (files : List PortFile) (keyFd : Nat)
    (readResult : Option (List Nat)) (loopback : Bool)
    (writeOk : Nat → Bool) : List PortFile :=
  match readResult with
  | none => files
  | some data => forwardWrites keyFd data loopback writeOk files

/-- forward_data over the list of ready events returned by
selector.select: events are processed in order, each one with the
swallow-all exception handling of forward_event. -/
def forward_data (files : List PortFile)
    (ready : List (Nat × Option (List Nat))) (loopback : Bool)
    (writeOk : Nat → Bool) : List PortFile :=
  ready.foldl (fun fs ev => forward_event fs ev.1 ev.2 loopback writeOk) files

/-! ## Command and response protocol (worker.py dict messages) -/

/-- Worker to controller response message: the dict with a status key
of OK, ERROR, EXIST or NOT_EXIST and the port name (or the error text)
as data. -/
inductive Response where
  | ok (name : String)
  | error (msg : String)
  | exist (name : String)
  | notExist (name : String)
deriving DecidableEq, Repr

/-- Controller to worker command message: the dict with a cmd key of
create, add, remove or stop and its data payload. -/
inductive Command where
  | create (n : Int)
  | addExternal (dicts : List String)
  | remove (names : List String)
  | stop
deriving DecidableEq, Repr

/-! ## Worker registry state (worker.py master_files / slave_names /
selector) -/

/-- Worker registry: the keys of the master_files dict in insertion
order, the slave_names dict (name to fd) as an insertion-ordered
association list, and the set of selector-registered descriptors. -/
structure WorkerState where
  masterFds : List Nat
  slaveNames : List (String × Nat)
  registered : List Nat
deriving DecidableEq, Repr

/-- Python dict key set after an assignment d[k] = v: unchanged when
the key is present, appended otherwise. -/
def dictInsertNat (l : List Nat) (fd : Nat) : List Nat :=
  if fd ∈ l then l else l ++ [fd]

/-- Python dict lookup on slave_names. -/
def assocLookup : List (String × Nat) → String → Option Nat
  | [], _ => none
  | (k, v) :: rest, key => if k = key then some v else assocLookup rest key

/-- Python dict assignment slave_names[name] = fd: update in place
when the key is present, append otherwise. -/
def assocInsert : List (String × Nat) → String → Nat → List (String × Nat)
  | [], key, v => [(key, v)]
  | (k, v0) :: rest, key, v =>
    if k = key then (key, v) :: rest else (k, v0) :: assocInsert rest key v

/-- Python del slave_names[name]. -/
def assocErase : List (String × Nat) → String → List (String × Nat)
  | [], _ => []
  | (k, v) :: rest, key =>
    if k = key then rest else (k, v) :: assocErase rest key

/-- A batch command handler of worker.py: one step per work item,
threading the registry through the items and emitting the responses
in item order. -/
def workerBatch {α : Type} (step : WorkerState → α → WorkerState × Response) :
    WorkerState → List α → WorkerState × List Response
  | st, [] => (st, [])
  | st, x :: xs =>
    ((workerBatch step (step st x).1 xs).1,
      (step st x).2 :: (workerBatch step (step st x).1 xs).2)

/-! ## generate_virtual_ports (worker.py lines 16-46) -/

/-- One loop iteration of generate_virtual_ports. The openpty oracle
covers the whole try prefix up to the registry mutations (openpty,
setraw, set_blocking, ttyname, open): none means an exception there,
answered by an ERROR response with the registry untouched. On some
(fd, name) the master_files and slave_names dicts are updated; the
subsequent selector.register raises when the fd is already registered,
which the broad except also turns into an ERROR response, leaving the
dicts mutated but the selector unchanged. -/
def generateStep (openpty : Nat → Option (Nat × String))
    (st : WorkerState) (i : Nat) : WorkerState × Response :=
  match openpty i with
  | none => (st, .error "openpty failed")
  | some (fd, name) =>
    let st1 : WorkerState :=
      { st with
        masterFds := dictInsertNat st.masterFds fd
        slaveNames := assocInsert st.slaveNames name fd }
    if fd ∈ st.registered then
      (st1, .error "register failed")
    else
      ({ st1 with registered := st.registered ++ [fd] }, .ok name)

/-- generate_virtual_ports: ports_number iterations of the creation
loop, the openpty oracle indexed by the invocation number within this
call. -/
def generate_virtual_ports (st : WorkerState) (portsNumber : Nat)
    (openpty : Nat → Option (Nat × String)) : WorkerState × List Response :=
  workerBatch (generateStep openpty) st (List.range portsNumber)

/-! ## add_external_ports (worker.py lines 50-79) -/

/-- One loop iteration of add_external_ports over a connection
parameter dict, represented by its port entry, the only key the worker
control flow inspects. A name already present in slave_names answers
EXIST; otherwise the openSerial oracle models Serial(**con_params) and
fileno (none is an exception, answered by ERROR); on success the
registry is mutated exactly as in generateStep. -/
def addExternalStep (openSerial : String → Option Nat)
    (st : WorkerState) (portName : String) : WorkerState × Response :=
  if (assocLookup st.slaveNames portName).isSome then
    (st, .exist portName)
  else
    match openSerial portName with
    | none => (st, .error "serial open failed")
    | some fd =>
      let st1 : WorkerState :=
        { st with
          masterFds := dictInsertNat st.masterFds fd
          slaveNames := assocInsert st.slaveNames portName fd }
      if fd ∈ st.registered then
        (st1, .error "register failed")
      else
        ({ st1 with registered := st.registered ++ [fd] }, .ok portName)

/-- add_external_ports over the list of connection dicts sent by the
controller. -/
def add_external_ports (st : WorkerState) (externalPorts : List String)
    (openSerial : String → Option Nat) : WorkerState × List Response :=
  workerBatch (addExternalStep openSerial) st externalPorts

/-! ## remove_ports (worker.py lines 82-108) -/

/-- One loop iteration of remove_ports. An unknown name answers
NOT_EXIST. For a known name, selector.unregister raises when the fd is
not registered (ERROR, registry untouched); the closeOk oracle models
master_files[fd].close(), whose failure is answered by ERROR with the
fd already unregistered but both dicts still holding the entry; on
success the entry is deleted from both dicts and OK is sent. -/
def removeStep (closeOk : String → Bool)
    (st : WorkerState) (name : String) : WorkerState × Response :=
  match assocLookup st.slaveNames name with
  | none => (st, .notExist name)
  | some fd =>
    if fd ∈ st.registered then
      let st1 : WorkerState := { st with registered := st.registered.erase fd }
      if closeOk name then
        ({ st1 with
            masterFds := st1.masterFds.erase fd
            slaveNames := assocErase st1.slaveNames name }, .ok name)
      else
        (st1, .error "close failed")
    else
      (st, .error "unregister failed")

/-- remove_ports over the remove list sent by the controller. -/
def remove_ports (st : WorkerState) (removeList : List String)
    (closeOk : String → Bool) : WorkerState × List Response :=
  workerBatch (removeStep closeOk) st removeList

/-! ## Controller state (virtual_serial_network.py) -/

/-- An external port descriptor held by the controller: a
SerialConnectionMinimalConfig object. objId models Python object
identity (two distinct objects carry distinct objIds even when their
port names agree); the class defines no equality of its own, so sets
of descriptors hash by identity. Only the port field drives the
control flow of the engine; the remaining serial-line fields are
opaque. -/
structure ExtDescriptor where
  objId : Nat
  port : String
deriving DecidableEq, Repr

/-- Controller state of VirtualSerialNetwork: running models the pipe
and worker process handles being non-None; the remaining fields are
external_ports, virtual_ports_num and serial_ports. The loopback flag
is forwarded to the worker unchanged and plays no role in controller
control flow, so it is not tracked. -/
structure ControllerState where
  running : Bool
  externalPorts : List ExtDescriptor
  virtualPortsNum : Int
  serialPorts : List String
deriving DecidableEq, Repr

/-- Result of one controller operation: the new controller state, the
new worker registry, the command message sent over the pipe (none when
the operation was a silent no-op), and the responses consumed. -/
structure OpResult where
  cst : ControllerState
  wst : WorkerState
  sent : Option Command
  resps : List Response
deriving DecidableEq, Repr

/-- Names carried by the OK responses of a batch, in response order:
the controller appends exactly these to its state. -/
def okNames (resps : List Response) : List String :=
  resps.filterMap fun r =>
    match r with
    | .ok name => some name
    | _ => none

/-- Python list(set(l)) on port-name strings: one representative per
distinct element. Python set iteration order is unspecified; List.dedup
is the representative order chosen by the model. -/
def pySet (l : List String) : List String :=
  l.dedup

/-- Python list(set(l)) on descriptor objects: sets hash descriptors by
object identity, so only duplicate references collapse; distinct
objects with equal port names both remain. -/
def pySetExt (l : List ExtDescriptor) : List ExtDescriptor :=
  l.dedup

/-- Python list(set(a) - set(b)) on port-name strings. -/
def pySetDiff (a b : List String) : List String :=
  a.dedup.filter fun x => decide (x ∉ b)

/-- The loop body of _ext_ports_remove_duplicates: keep a descriptor
when no earlier kept descriptor has the same port name. -/
def extDedupGo (acc : List ExtDescriptor) : List ExtDescriptor → List ExtDescriptor
  | [] => acc
  | p :: rest =>
    if acc.any (fun q => q.port == p.port) then extDedupGo acc rest
    else extDedupGo (acc ++ [p]) rest

/-- _ext_ports_remove_duplicates (virtual_serial_network.py lines
79-90): first-occurrence deduplication of the descriptor list by port
name. -/
def extPortsRemoveDuplicates (l : List ExtDescriptor) : List ExtDescriptor :=
  extDedupGo [] l

/-- _update_ext_ports (virtual_serial_network.py lines 92-100): keep
exactly the descriptors whose port name is among the connected names. -/
def updateExtPorts (l : List ExtDescriptor) (portsConnected : List String) :
    List ExtDescriptor :=
  l.filter fun d => decide (d.port ∈ portsConnected)

/-- The remove loop over external_ports (virtual_serial_network.py
lines 163-169): delete the first descriptor whose port matches. -/
def eraseFirstByPort : List ExtDescriptor → String → List ExtDescriptor
  | [], _ => []
  | d :: rest, name =>
    if d.port == name then rest else d :: eraseFirstByPort rest name

/-- VirtualSerialNetwork.__init__: not running, descriptor list
deduplicated by port name, empty port-name list. -/
def VirtualSerialNetwork.mkController (virtualPortsNum : Int)
    (externalPorts : List ExtDescriptor) : ControllerState :=
  { running := false
    externalPorts := extPortsRemoveDuplicates externalPorts
    virtualPortsNum := virtualPortsNum
    serialPorts := [] }

/-- VirtualSerialNetwork.start (lines 36-77): spawn a worker with an
empty registry, let it run generate_virtual_ports then
add_external_ports, and consume the responses: virtual_ports_num
becomes the count of virtual OK responses and their names are
appended; connected external names are collected, the descriptor list
is filtered to the connected names and deduplicated, and serial_ports
is rebuilt through list(set(...)). -/
def VirtualSerialNetwork.start (cst : ControllerState)
    (openpty : Nat → Option (Nat × String))
    (openSerial : String → Option Nat) : ControllerState × WorkerState :=
  let wst0 : WorkerState := { masterFds := [], slaveNames := [], registered := [] }
  let gen := generate_virtual_ports wst0 cst.virtualPortsNum.toNat openpty
  let added := add_external_ports gen.1 (cst.externalPorts.map (fun d => d.port)) openSerial
  let okVirtual := okNames gen.2
  let portsConnected := okNames added.2
  ({ running := true
     externalPorts :=
       extPortsRemoveDuplicates (updateExtPorts cst.externalPorts portsConnected)
     virtualPortsNum := (okVirtual.length : Int)
     serialPorts := pySet ((cst.serialPorts ++ okVirtual) ++ portsConnected) },
   added.1)

/-- VirtualSerialNetwork.stop (lines 102-112): when running, send the
stop command, drop the process and pipe handles and clear
serial_ports; external_ports and virtual_ports_num are left as they
are. When already stopped, nothing happens and nothing is sent. -/
def VirtualSerialNetwork.stop (cst : ControllerState) :
    ControllerState × Option Command :=
  if cst.running then
    ({ cst with running := false, serialPorts := [] }, some .stop)
  else
    (cst, none)

/-- VirtualSerialNetwork.add (lines 114-136): silent no-op unless
running. Otherwise send the dicts of list(set(external_ports)), let
the worker run add_external_ports, and per OK response append the
first argument descriptor with the matching port name; the descriptor
list is extended and re-deduplicated and serial_ports rebuilt through
list(set(...)). -/
def VirtualSerialNetwork.add (cst : ControllerState) (wst : WorkerState)
    (externalPorts : List ExtDescriptor)
    (openSerial : String → Option Nat) : OpResult :=
  if cst.running then
    let sentPorts := pySetExt externalPorts
    let dicts := sentPorts.map fun d => d.port
    let added := add_external_ports wst dicts openSerial
    let portsConnected := added.2.filterMap fun r =>
      match r with
      | .ok name => sentPorts.find? fun p => p.port == name
      | _ => none
    { cst :=
        { cst with
          externalPorts :=
            extPortsRemoveDuplicates (cst.externalPorts ++ portsConnected)
          serialPorts :=
            pySet (cst.serialPorts ++ portsConnected.map fun d => d.port) }
      wst := added.1
      sent := some (.addExternal dicts)
      resps := added.2 }
  else
    { cst := cst, wst := wst, sent := none, resps := [] }

/-- VirtualSerialNetwork.create (lines 138-148): silent no-op unless
running. Otherwise send the create command, let the worker run
generate_virtual_ports, and per OK response append the name to
serial_ports (with no deduplication) and bump virtual_ports_num. -/
def VirtualSerialNetwork.create (cst : ControllerState) (wst : WorkerState)
    (portsNum : Int)
    (openpty : Nat → Option (Nat × String)) : OpResult :=
  if cst.running then
    let gen := generate_virtual_ports wst portsNum.toNat openpty
    let newNames := okNames gen.2
    { cst :=
        { cst with
          serialPorts := cst.serialPorts ++ newNames
          virtualPortsNum := cst.virtualPortsNum + (newNames.length : Int) }
      wst := gen.1
      sent := some (.create portsNum)
      resps := gen.2 }
  else
    { cst := cst, wst := wst, sent := none, resps := [] }

/-- VirtualSerialNetwork.remove (lines 150-172): silent no-op unless
running. Otherwise send the remove command, let the worker run
remove_ports, and per OK name delete the first matching external
descriptor or, when none matches, decrement virtual_ports_num;
serial_ports is rebuilt as list(set(serial_ports) - set(removed)). -/
def VirtualSerialNetwork.remove (cst : ControllerState) (wst : WorkerState)
    (removeList : List String) (closeOk : String → Bool) : OpResult :=
  if cst.running then
    let rem := remove_ports wst removeList closeOk
    let removedPorts := okNames rem.2
    let extVpn := removedPorts.foldl
      (fun acc name =>
        if acc.1.any (fun d => d.port == name) then
          (eraseFirstByPort acc.1 name, acc.2)
        else
          (acc.1, acc.2 - 1))
      (cst.externalPorts, cst.virtualPortsNum)
    { cst :=
        { cst with
          externalPorts := extVpn.1
          virtualPortsNum := extVpn.2
          serialPorts := pySetDiff cst.serialPorts removedPorts }
      wst := rem.1
      sent := some (.remove removeList)
      resps := rem.2 }
  else
    { cst := cst, wst := wst, sent := none, resps := [] }

/-! ## Pair specialization (virtual_serial_pair.py) -/

/-- VirtualSerialPair.__init__: two virtual ports, no external ports,
loopback disabled. -/
def VirtualSerialPair.mkController : ControllerState :=
  VirtualSerialNetwork.mkController 2 []

/-- VirtualSerialPair.start (lines 18-22): run the network start, then
tear everything down through stop when fewer than two virtual ports
were created. -/
def VirtualSerialPair.start (cst : ControllerState)
    (openpty : Nat → Option (Nat × String))
    (openSerial : String → Option Nat) : ControllerState × WorkerState :=
  let s := VirtualSerialNetwork.start cst openpty openSerial
  if s.1.virtualPortsNum < 2 then
    ((VirtualSerialNetwork.stop s.1).1, s.2)
  else
    s

/-- VirtualSerialPair.add (lines 24-25): only logs; no message is sent
and the state is untouched. -/
def VirtualSerialPair.add (cst : ControllerState)
    (_externalPorts : List ExtDescriptor) : ControllerState × Option Command :=
  (cst, none)

/-- VirtualSerialPair.create (lines 27-28): only logs; no message is
sent and the state is untouched. -/
def VirtualSerialPair.create (cst : ControllerState)
    (_portsNum : Int) : ControllerState × Option Command :=
  (cst, none)

/-- VirtualSerialPair.remove (lines 30-31): only logs; no message is
sent and the state is untouched. -/
def VirtualSerialPair.remove (cst : ControllerState)
    (_removeList : List String) : ControllerState × Option Command :=
  (cst, none)

/-! ## Helper lemmas -/

theorem workerBatch_length {α : Type}
    (step : WorkerState → α → WorkerState × Response) (st : WorkerState)
    (xs : List α) : (workerBatch step st xs).2.length = xs.length := by
  induction xs generalizing st with
  | nil => rfl
  | cons x xs ih => simp [workerBatch, ih]

theorem assocLookup_insert (l : List (String × Nat)) (k : String) (v : Nat) :
    assocLookup (assocInsert l k v) k = some v := by
  induction l with
  | nil => simp [assocInsert, assocLookup]
  | cons p rest ih =>
    by_cases h : p.1 = k
    · simp [assocInsert, assocLookup, h]
    · simp [assocInsert, assocLookup, h, ih]

/-! ## Claim theorems -/

/-- C1: for a readiness event of the forwarding step on which every
attempted write succeeds, the byte sequence read from the ready
descriptor is appended, unmodified, to the stream of every registered
descriptor other than the source, and never to the source itself;
with loopback enabled it is appended to every registered descriptor,
the source included. The single map equation captures all three
clauses: the branch condition loopback || fd != keyFd marks exactly
the descriptors that receive the data. -/
theorem forward_broadcast_delivery (files : List PortFile) (keyFd : Nat)
    (data : List Nat) (loopback : Bool) (writeOk : Nat → Bool)
    (hok : ∀ f ∈ files, (loopback || f.fd != keyFd) = true → writeOk f.fd = true) :
    forward_event files keyFd (some data) loopback writeOk
      = files.map fun f =>
          if loopback || f.fd != keyFd then
            { f with written := f.written ++ data }
          else f := by
  show forwardWrites keyFd data loopback writeOk files = _
  induction files with
  | nil => rfl
  | cons f rest ih =>
    by_cases hatt : (loopback || f.fd != keyFd) = true
    · rw [forwardWrites, if_pos hatt, if_pos (hok f (by simp) hatt),
        List.map_cons, if_pos hatt,
        ih (fun g hg => hok g (List.mem_cons_of_mem f hg))]
    · rw [forwardWrites, if_neg hatt, List.map_cons, if_neg hatt,
        ih (fun g hg => hok g (List.mem_cons_of_mem f hg))]

/-- C1 witness: concrete broadcast with three descriptors, source
fd 1, loopback disabled, all writes succeeding. -/
theorem forward_broadcast_delivery_witness :
    forward_event [⟨1, []⟩, ⟨2, []⟩, ⟨3, []⟩] 1 (some [7, 8]) false (fun _ => true)
      = [⟨1, []⟩, ⟨2, [7, 8]⟩, ⟨3, [7, 8]⟩] := by
  rw [forward_broadcast_delivery [⟨1, []⟩, ⟨2, []⟩, ⟨3, []⟩] 1 [7, 8] false
    (fun _ => true) (by decide)]
  decide

/-- C2 counterexample: the claim asserts that a write failure on one
target does not prevent delivery to every remaining registered
descriptor of the same broadcast. With descriptors 1, 2, 3, source 1,
data [7] and the write to fd 2 failing, the claim requires fd 3 to
still receive [7]; the code aborts the write loop at the failure
(the except clause of forward_data encloses the whole loop), so fd 3
receives nothing. -/
theorem forward_write_failure_counterexample :
    (forward_event [⟨1, []⟩, ⟨2, []⟩, ⟨3, []⟩] 1 (some [7]) false
        (fun fd => fd != 2)).map PortFile.written ≠ [[], [], [7]] := by
  decide

/-- C2 amended: a write failure on one target is swallowed (the
forwarding step completes and returns a state instead of propagating
the exception), every descriptor before the failing one in registry
order still receives the data (or is skipped as the source), and the
failing descriptor together with every descriptor after it is left
untouched by this broadcast. -/
theorem forward_write_failure_aborts_broadcast (pre post : List PortFile)
    (bad : PortFile) (keyFd : Nat) (data : List Nat) (loopback : Bool)
    (writeOk : Nat → Bool)
    (hpre : ∀ f ∈ pre, (loopback || f.fd != keyFd) = true → writeOk f.fd = true)
    (hbadAttempted : (loopback || bad.fd != keyFd) = true)
    (hbad : writeOk bad.fd = false) :
    forward_event (pre ++ bad :: post) keyFd (some data) loopback writeOk
      = (pre.map fun f =>
          if loopback || f.fd != keyFd then
            { f with written := f.written ++ data }
          else f) ++ bad :: post := by
  show forwardWrites keyFd data loopback writeOk (pre ++ bad :: post) = _
  induction pre with
  | nil =>
    simp only [List.nil_append, List.map_nil]
    rw [forwardWrites, if_pos hbadAttempted, if_neg (by simp [hbad])]
  | cons f rest ih =>
    by_cases hatt : (loopback || f.fd != keyFd) = true
    · rw [List.cons_append, forwardWrites, if_pos hatt,
        if_pos (hpre f (by simp) hatt), List.map_cons, if_pos hatt,
        List.cons_append,
        ih (fun g hg => hpre g (List.mem_cons_of_mem f hg))]
    · rw [List.cons_append, forwardWrites, if_neg hatt, List.map_cons,
        if_neg hatt, List.cons_append,
        ih (fun g hg => hpre g (List.mem_cons_of_mem f hg))]

/-- C2 amended witness: source 1, the write to fd 2 fails, fd 4 sits
before the failure and receives the data, fd 3 after it receives
nothing. -/
theorem forward_write_failure_aborts_broadcast_witness :
    forward_event [⟨4, []⟩, ⟨2, []⟩, ⟨3, []⟩] 1 (some [7]) false
        (fun fd => fd != 2)
      = [⟨4, [7]⟩, ⟨2, []⟩, ⟨3, []⟩] := by
  show forward_event ([⟨4, []⟩] ++ ⟨2, []⟩ :: [⟨3, []⟩]) 1 (some [7]) false
      (fun fd => fd != 2) = _
  rw [forward_write_failure_aborts_broadcast [⟨4, []⟩] [⟨3, []⟩] ⟨2, []⟩ 1 [7]
    false (fun fd => fd != 2) (by decide) (by decide) (by decide)]
  decide

/-- C3: every batch command handler of the worker emits exactly one
response per unit of work requested, whatever the outcome of each
unit: n responses for creating n virtual ports, one per connection
dict for add_external_ports, one per name for remove_ports. -/
theorem batch_response_counts (st1 st2 st3 : WorkerState) (n : Nat)
    (openpty : Nat → Option (Nat × String)) (dicts : List String)
    (openSerial : String → Option Nat) (names : List String)
    (closeOk : String → Bool) :
    (generate_virtual_ports st1 n openpty).2.length = n
    ∧ (add_external_ports st2 dicts openSerial).2.length = dicts.length
    ∧ (remove_ports st3 names closeOk).2.length = names.length := by
  refine ⟨?_, ?_, ?_⟩
  · rw [generate_virtual_ports, workerBatch_length, List.length_range]
  · rw [add_external_ports, workerBatch_length]
  · rw [remove_ports, workerBatch_length]

/-- When every openpty invocation succeeds with a descriptor that is
neither already registered nor repeated, every iteration of the
creation loop answers OK with the produced slave name. -/
theorem workerBatch_generate_ok (openpty : Nat → Option (Nat × String))
    (fds : Nat → Nat) (nms : Nat → String) :
    ∀ (fuel s : Nat) (st : WorkerState),
    (∀ k, k < fuel → openpty (s + k) = some (fds (s + k), nms (s + k))) →
    (∀ k, k < fuel → fds (s + k) ∉ st.registered) →
    (∀ k l, k < fuel → l < fuel → k ≠ l → fds (s + k) ≠ fds (s + l)) →
    (workerBatch (generateStep openpty) st (List.range' s fuel)).2
      = (List.range' s fuel).map fun i => Response.ok (nms i) := by
  intro fuel
  induction fuel with
  | zero => intro s st _ _ _; rfl
  | succ fuel ih =>
    intro s st hop hreg hinj
    have h0 : openpty s = some (fds s, nms s) := by
      have := hop 0 (Nat.succ_pos fuel)
      simpa using this
    have hr0 : fds s ∉ st.registered := by
      have := hreg 0 (Nat.succ_pos fuel)
      simpa using this
    rw [List.range'_succ]
    have hstep : generateStep openpty st s
        = ({ masterFds := dictInsertNat st.masterFds (fds s)
             slaveNames := assocInsert st.slaveNames (nms s) (fds s)
             registered := st.registered ++ [fds s] }, .ok (nms s)) := by
      rw [generateStep, h0]
      simp [hr0]
    rw [workerBatch, hstep, List.map_cons]
    refine congrArg (fun l => Response.ok (nms s) :: l) ?_
    refine ih (s + 1) _ ?_ ?_ ?_
    · intro k hk
      have h := hop (k + 1) (Nat.succ_lt_succ hk)
      have e : s + (k + 1) = s + 1 + k := by omega
      rw [e] at h
      exact h
    · intro k hk
      have h1 : fds (s + (k + 1)) ∉ st.registered :=
        hreg (k + 1) (Nat.succ_lt_succ hk)
      have h2 : fds (s + (k + 1)) ≠ fds (s + 0) :=
        hinj (k + 1) 0 (Nat.succ_lt_succ hk) (Nat.succ_pos fuel)
          (Nat.succ_ne_zero k)
      have e : s + (k + 1) = s + 1 + k := by omega
      rw [e] at h1 h2
      simp only [List.mem_append, List.mem_singleton]
      rintro (h | h)
      · exact h1 h
      · exact h2 (by simpa using h)
    · intro k l hk hl hne
      have h := hinj (k + 1) (l + 1) (Nat.succ_lt_succ hk)
        (Nat.succ_lt_succ hl) (by omega)
      have ek : s + (k + 1) = s + 1 + k := by omega
      have el : s + (l + 1) = s + 1 + l := by omega
      rw [ek, el] at h
      exact h

/-- C4: starting a freshly constructed network with no external
descriptors and n requested virtual ports yields a port-name list of
size at most n, and of size exactly n whenever the injected pty
factory succeeds on every invocation (producing, as a pty factory
does, pairwise distinct descriptors and slave names). -/
theorem start_port_count (n : Nat) (openpty : Nat → Option (Nat × String))
    (openSerial : String → Option Nat) :
    ((VirtualSerialNetwork.start (VirtualSerialNetwork.mkController (n : Int) [])
        openpty openSerial).1.serialPorts.length ≤ n)
    ∧ ∀ (fds : Nat → Nat) (nms : Nat → String),
        (∀ i, i < n → openpty i = some (fds i, nms i)) →
        (∀ i j, i < n → j < n → i ≠ j → fds i ≠ fds j) →
        (∀ i j, i < n → j < n → i ≠ j → nms i ≠ nms j) →
        (VirtualSerialNetwork.start (VirtualSerialNetwork.mkController (n : Int) [])
            openpty openSerial).1.serialPorts.length = n := by
  have hserial :
      (VirtualSerialNetwork.start (VirtualSerialNetwork.mkController (n : Int) [])
          openpty openSerial).1.serialPorts
        = (okNames (generate_virtual_ports
            { masterFds := [], slaveNames := [], registered := [] } n openpty).2).dedup := by
    simp [VirtualSerialNetwork.start, VirtualSerialNetwork.mkController,
      extPortsRemoveDuplicates, extDedupGo, add_external_ports, workerBatch,
      pySet, okNames]
  constructor
  · rw [hserial]
    calc (okNames (generate_virtual_ports _ n openpty).2).dedup.length
        ≤ (okNames (generate_virtual_ports _ n openpty).2).length :=
          (List.dedup_sublist _).length_le
      _ ≤ (generate_virtual_ports _ n openpty).2.length :=
          List.length_filterMap_le _ _
      _ = n := by rw [generate_virtual_ports, workerBatch_length, List.length_range]
  · intro fds nms hop hfd hnm
    rw [hserial]
    have hresp : (generate_virtual_ports
        { masterFds := [], slaveNames := [], registered := [] } n openpty).2
        = (List.range' 0 n).map fun i => Response.ok (nms i) := by
      rw [generate_virtual_ports, List.range_eq_range']
      refine workerBatch_generate_ok openpty fds nms n 0 _ ?_ ?_ ?_
      · intro k hk; simpa using hop k hk
      · intro k _; simp
      · intro k l hk hl hne
        simpa using hfd k l hk hl hne
    rw [hresp, okNames, List.filterMap_map]
    have hmap : (List.filterMap
        ((fun r => match r with | .ok name => some name | _ => none)
          ∘ fun i => Response.ok (nms i)) (List.range' 0 n))
        = (List.range' 0 n).map nms := by
      have : ((fun r => match r with | .ok name => some name | _ => none)
          ∘ fun i => Response.ok (nms i)) = some ∘ nms := rfl
      rw [this, List.filterMap_eq_map]
    rw [hmap, ← List.range_eq_range']
    have hnodup : ((List.range n).map nms).Nodup := by
      refine List.Nodup.map_on ?_ (List.nodup_range n)
      intro x hx y hy hxy
      by_contra hne
      exact hnm x y (List.mem_range.mp hx) (List.mem_range.mp hy) hne hxy
    rw [List.dedup_eq_self.mpr hnodup, List.length_map, List.length_range]

/-- C6: semantics of removing one name. If the name is registered in
the worker (and its descriptor is selector-registered and closes
without error, the only behavior of a healthy registry entry), the
worker replies Ok and the controller drops the name from its
port-name list and removes the first matching external descriptor
when one exists, otherwise decrements the virtual-port count. If the
name is not registered — including a name already removed — the worker
replies NotFound (NOT_EXIST), not Error, and the controller state is
left entirely unchanged. -/
theorem remove_single_name (cst : ControllerState) (wst : WorkerState)
    (x : String) (fd : Nat) (closeOk : String → Bool)
    (hrun : cst.running = true) (hnd : cst.serialPorts.Nodup) :
    (assocLookup wst.slaveNames x = some fd → fd ∈ wst.registered →
      closeOk x = true →
      (VirtualSerialNetwork.remove cst wst [x] closeOk).resps = [Response.ok x]
      ∧ (VirtualSerialNetwork.remove cst wst [x] closeOk).cst.serialPorts
          = cst.serialPorts.filter (fun y => y != x)
      ∧ ((∃ d ∈ cst.externalPorts, d.port = x) →
          (VirtualSerialNetwork.remove cst wst [x] closeOk).cst.externalPorts
              = eraseFirstByPort cst.externalPorts x
          ∧ (VirtualSerialNetwork.remove cst wst [x] closeOk).cst.virtualPortsNum
              = cst.virtualPortsNum)
      ∧ ((∀ d ∈ cst.externalPorts, d.port ≠ x) →
          (VirtualSerialNetwork.remove cst wst [x] closeOk).cst.externalPorts
              = cst.externalPorts
          ∧ (VirtualSerialNetwork.remove cst wst [x] closeOk).cst.virtualPortsNum
              = cst.virtualPortsNum - 1))
    ∧ (assocLookup wst.slaveNames x = none →
        (VirtualSerialNetwork.remove cst wst [x] closeOk).resps
            = [Response.notExist x]
        ∧ (VirtualSerialNetwork.remove cst wst [x] closeOk).cst = cst) := by
  obtain ⟨b, ext, vpn, sp⟩ := cst
  have hb : b = true := hrun
  subst hb
  have hnd' : sp.Nodup := hnd
  constructor
  · intro hfound hreg hclose
    have hfilter : pySetDiff sp [x] = sp.filter (fun y => y != x) := by
      rw [pySetDiff, List.dedup_eq_self.mpr hnd']
      refine List.filter_congr ?_
      intro a _
      by_cases h : a = x <;> simp [h]
    refine ⟨?_, ?_, ?_, ?_⟩
    · simp [VirtualSerialNetwork.remove, remove_ports, workerBatch,
        removeStep, hfound, hreg, hclose]
    · rw [← hfilter]
      simp [VirtualSerialNetwork.remove, remove_ports, workerBatch,
        removeStep, hfound, hreg, hclose, okNames]
    · intro hany
      constructor <;>
        simp [VirtualSerialNetwork.remove, remove_ports, workerBatch,
          removeStep, hfound, hreg, hclose, okNames, hany]
    · intro hall
      have hany : ¬ ∃ d ∈ ext, d.port = x := by
        rintro ⟨d, hd, he⟩
        exact hall d hd he
      constructor <;>
        simp [VirtualSerialNetwork.remove, remove_ports, workerBatch,
          removeStep, hfound, hreg, hclose, okNames, hany]
  · intro hmissing
    have hsp : pySetDiff sp [] = sp := by
      rw [pySetDiff, List.dedup_eq_self.mpr hnd']
      simp
    constructor
    · simp [VirtualSerialNetwork.remove, remove_ports, workerBatch,
        removeStep, hmissing]
    · simp [VirtualSerialNetwork.remove, remove_ports, workerBatch,
        removeStep, hmissing, okNames, hsp]

/-- C6 witness: a running controller knowing names a and b, the worker
holding a at descriptor 3; removing a answers Ok and removes the name
and its external descriptor, removing the unknown name z answers
NOT_EXIST and changes nothing. -/
theorem remove_single_name_witness :
    (VirtualSerialNetwork.remove ⟨true, [⟨1, "a"⟩], 1, ["a", "b"]⟩
        ⟨[3], [("a", 3)], [3]⟩ ["a"] (fun _ => true)).resps = [Response.ok "a"]
    ∧ (VirtualSerialNetwork.remove ⟨true, [⟨1, "a"⟩], 1, ["a", "b"]⟩
        ⟨[3], [("a", 3)], [3]⟩ ["a"] (fun _ => true)).cst.serialPorts
        = ["a", "b"].filter (fun y => y != "a")
    ∧ (VirtualSerialNetwork.remove ⟨true, [⟨1, "a"⟩], 1, ["a", "b"]⟩
        ⟨[3], [("a", 3)], [3]⟩ ["z"] (fun _ => true)).resps
        = [Response.notExist "z"]
    ∧ (VirtualSerialNetwork.remove ⟨true, [⟨1, "a"⟩], 1, ["a", "b"]⟩
        ⟨[3], [("a", 3)], [3]⟩ ["z"] (fun _ => true)).cst
        = ⟨true, [⟨1, "a"⟩], 1, ["a", "b"]⟩ := by
  have h1 := (remove_single_name ⟨true, [⟨1, "a"⟩], 1, ["a", "b"]⟩
    ⟨[3], [("a", 3)], [3]⟩ "a" 3 (fun _ => true) rfl (by decide)).1
    rfl (by decide) rfl
  have h2 := (remove_single_name ⟨true, [⟨1, "a"⟩], 1, ["a", "b"]⟩
    ⟨[3], [("a", 3)], [3]⟩ "z" 3 (fun _ => true) rfl (by decide)).2 rfl
  exact ⟨h1.1, h1.2.1, h2.1, h2.2⟩

/-- C7 counterexample: the claim asserts that stop clears all
controller state, including the external descriptor list and the
virtual-port count. Stopping a running network holding one external
descriptor named X and virtual-port count 2 leaves both exactly as
they were: only the port-name list and the process and pipe handles
are cleared. -/
theorem stop_counterexample :
    (VirtualSerialNetwork.stop ⟨true, [⟨1, "X"⟩], 2, ["a"]⟩).1.externalPorts
        = [⟨1, "X"⟩]
    ∧ (VirtualSerialNetwork.stop ⟨true, [⟨1, "X"⟩], 2, ["a"]⟩).1.virtualPortsNum
        = 2
    ∧ ([⟨1, "X"⟩] : List ExtDescriptor) ≠ [] ∧ (2 : Int) ≠ 0 := by
  refine ⟨rfl, rfl, by decide, by decide⟩

/-- C7 amended: after stop returns on a running network the port-name
list and the process and pipe handles are cleared unconditionally
(regardless of whether the worker exited cleanly — the controller
never inspects the join result), while the external descriptor list
and the virtual-port count are retained; and stop is idempotent:
stopping an already stopped network sends nothing and changes no
state. -/
theorem stop_clears_names_only_and_idempotent (cst : ControllerState) :
    (cst.running = true →
      (VirtualSerialNetwork.stop cst).1.running = false
      ∧ (VirtualSerialNetwork.stop cst).1.serialPorts = []
      ∧ (VirtualSerialNetwork.stop cst).1.externalPorts = cst.externalPorts
      ∧ (VirtualSerialNetwork.stop cst).1.virtualPortsNum = cst.virtualPortsNum
      ∧ (VirtualSerialNetwork.stop cst).2 = some Command.stop)
    ∧ (cst.running = false →
      (VirtualSerialNetwork.stop cst).1 = cst
      ∧ (VirtualSerialNetwork.stop cst).2 = none) := by
  constructor
  · intro h
    simp [VirtualSerialNetwork.stop, h]
  · intro h
    simp [VirtualSerialNetwork.stop, h]

/-- C7 amended witness: stopping a concrete running network, then
stopping the result again. -/
theorem stop_clears_names_only_and_idempotent_witness :
    ((VirtualSerialNetwork.stop ⟨true, [⟨1, "X"⟩], 2, ["a"]⟩).1.running = false
      ∧ (VirtualSerialNetwork.stop ⟨true, [⟨1, "X"⟩], 2, ["a"]⟩).1.serialPorts = []
      ∧ (VirtualSerialNetwork.stop ⟨true, [⟨1, "X"⟩], 2, ["a"]⟩).1.externalPorts
          = [⟨1, "X"⟩]
      ∧ (VirtualSerialNetwork.stop ⟨true, [⟨1, "X"⟩], 2, ["a"]⟩).1.virtualPortsNum
          = 2)
    ∧ (VirtualSerialNetwork.stop ⟨false, [⟨1, "X"⟩], 2, []⟩).1
        = ⟨false, [⟨1, "X"⟩], 2, []⟩ := by
  have h1 := (stop_clears_names_only_and_idempotent
    ⟨true, [⟨1, "X"⟩], 2, ["a"]⟩).1 rfl
  have h2 := (stop_clears_names_only_and_idempotent
    ⟨false, [⟨1, "X"⟩], 2, []⟩).2 rfl
  exact ⟨⟨h1.1, h1.2.1, h1.2.2.1, h1.2.2.2.1⟩, h2.1⟩

/-- C8: calling add, create or remove while the controller holds no
pipe handle — true both before start (the constructor leaves it
unset) and after stop (stop resets it) — is a silent no-op: no command
message is sent, no responses are consumed, and the controller and
worker states are returned untouched. -/
theorem mutations_before_start_or_after_stop_noop (cst cst2 : ControllerState)
    (wst : WorkerState) (exts : List ExtDescriptor) (pn m : Int)
    (names : List String) (openpty : Nat → Option (Nat × String))
    (openSerial : String → Option Nat) (closeOk : String → Bool)
    (h : cst.running = false) :
    VirtualSerialNetwork.add cst wst exts openSerial
        = { cst := cst, wst := wst, sent := none, resps := [] }
    ∧ VirtualSerialNetwork.create cst wst m openpty
        = { cst := cst, wst := wst, sent := none, resps := [] }
    ∧ VirtualSerialNetwork.remove cst wst names closeOk
        = { cst := cst, wst := wst, sent := none, resps := [] }
    ∧ (VirtualSerialNetwork.mkController pn exts).running = false
    ∧ (VirtualSerialNetwork.stop cst2).1.running = false := by
  refine ⟨?_, ?_, ?_, rfl, ?_⟩
  · simp [VirtualSerialNetwork.add, h]
  · simp [VirtualSerialNetwork.create, h]
  · simp [VirtualSerialNetwork.remove, h]
  · by_cases h2 : cst2.running <;> simp [VirtualSerialNetwork.stop, h2]

/-- C8 witness: a concrete stopped controller with pending state. -/
theorem mutations_before_start_or_after_stop_noop_witness :
    VirtualSerialNetwork.add ⟨false, [⟨1, "X"⟩], 2, ["a"]⟩ ⟨[], [], []⟩
        [⟨2, "Y"⟩] (fun _ => some 5)
      = { cst := ⟨false, [⟨1, "X"⟩], 2, ["a"]⟩, wst := ⟨[], [], []⟩,
          sent := none, resps := [] }
    ∧ VirtualSerialNetwork.remove ⟨false, [⟨1, "X"⟩], 2, ["a"]⟩ ⟨[], [], []⟩
        ["a"] (fun _ => true)
      = { cst := ⟨false, [⟨1, "X"⟩], 2, ["a"]⟩, wst := ⟨[], [], []⟩,
          sent := none, resps := [] } := by
  have h := mutations_before_start_or_after_stop_noop
    ⟨false, [⟨1, "X"⟩], 2, ["a"]⟩ ⟨false, [], 0, []⟩ ⟨[], [], []⟩
    [⟨2, "Y"⟩] 0 1 ["a"] (fun _ => none) (fun _ => some 5) (fun _ => true) rfl
  exact ⟨h.1, h.2.2.1⟩

/-- C5 counterexample: the claim asserts that add deduplicates its
input by port name before sending. With the two distinct descriptor
objects (objId 1, port X) and (objId 2, port X), list(set(...))
collapses nothing (descriptor objects hash by identity, the config
class defines no equality of its own, and every controller-side
name comparison in the source is an explicit .port comparison), so
the AddExternal command carries the name X twice rather than once. -/
theorem add_no_name_dedup_counterexample :
    (VirtualSerialNetwork.add ⟨true, [], 0, []⟩ ⟨[], [], []⟩
        [⟨1, "X"⟩, ⟨2, "X"⟩] (fun _ => some 5)).sent
      = some (Command.addExternal ["X", "X"])
    ∧ ¬ (["X", "X"] : List String).Nodup := by
  constructor
  · rfl
  · decide

/-- C5 amended: add does not merge distinct descriptor objects that
share a port name; both are sent to the worker, and it is the worker
registry check that yields exactly one Ok and one AlreadyExists for
the shared name (when the name is not yet registered and the device
opens); the controller then records the name exactly once in its
port-name list. -/
theorem add_duplicate_name_outcome (cst : ControllerState)
    (wst : WorkerState) (d1 d2 : ExtDescriptor) (x : String) (fd : Nat)
    (openSerial : String → Option Nat)
    (hrun : cst.running = true) (hne : d1 ≠ d2)
    (h1 : d1.port = x) (h2 : d2.port = x)
    (hfresh : assocLookup wst.slaveNames x = none)
    (hopen : openSerial x = some fd)
    (hreg : fd ∉ wst.registered) :
    (VirtualSerialNetwork.add cst wst [d1, d2] openSerial).sent
        = some (Command.addExternal [x, x])
    ∧ (VirtualSerialNetwork.add cst wst [d1, d2] openSerial).resps
        = [Response.ok x, Response.exist x]
    ∧ ((VirtualSerialNetwork.add cst wst [d1, d2] openSerial).cst.serialPorts.count x
        = 1) := by
  have hne' : d1 ∉ [d2] := by simp [hne]
  have hlookup2 := assocLookup_insert wst.slaveNames x fd
  refine ⟨?_, ?_, ?_⟩
  · simp [VirtualSerialNetwork.add, hrun, pySetExt,
      List.dedup_cons_of_not_mem hne', h1, h2]
  · simp [VirtualSerialNetwork.add, hrun, pySetExt,
      List.dedup_cons_of_not_mem hne', h1, h2, add_external_ports,
      workerBatch, addExternalStep, hfresh, hopen, hreg, hlookup2]
  · have hsp : (VirtualSerialNetwork.add cst wst [d1, d2] openSerial).cst.serialPorts
        = (cst.serialPorts ++ [x]).dedup := by
      simp [VirtualSerialNetwork.add, hrun, pySetExt,
        List.dedup_cons_of_not_mem hne', h1, h2, add_external_ports,
        workerBatch, addExternalStep, hfresh, hopen, hreg, hlookup2,
        okNames, pySet]
    rw [hsp]
    exact List.count_eq_one_of_mem (List.nodup_dedup _)
      (List.mem_dedup.mpr (by simp))

/-- C5 amended witness: running controller, empty worker registry, two
distinct descriptors named X, device opening as descriptor 5. -/
theorem add_duplicate_name_outcome_witness :
    (VirtualSerialNetwork.add ⟨true, [], 0, []⟩ ⟨[], [], []⟩
        [⟨1, "X"⟩, ⟨2, "X"⟩] (fun _ => some 5)).resps
      = [Response.ok "X", Response.exist "X"]
    ∧ ((VirtualSerialNetwork.add ⟨true, [], 0, []⟩ ⟨[], [], []⟩
        [⟨1, "X"⟩, ⟨2, "X"⟩] (fun _ => some 5)).cst.serialPorts.count "X" = 1) := by
  have h := add_duplicate_name_outcome ⟨true, [], 0, []⟩ ⟨[], [], []⟩
    ⟨1, "X"⟩ ⟨2, "X"⟩ "X" 5 (fun _ => some 5) rfl (by decide) rfl rfl rfl rfl
    (by decide)
  exact ⟨h.2.1, h.2.2⟩

/-- C9: the pair specialization disables add, create and remove as
logged no-ops that send nothing and change no state, and its start
tears the whole network down — stopped, with empty port-name list and
empty descriptor list — whenever fewer than two virtual ports were
successfully created (the retained virtual-port count equals the
number created, so the teardown branch is exactly the runs whose
resulting count is below two). -/
theorem pair_disabled_ops_and_teardown (cst : ControllerState)
    (exts : List ExtDescriptor) (m : Int) (names : List String)
    (openpty : Nat → Option (Nat × String))
    (openSerial : String → Option Nat) :
    VirtualSerialPair.add cst exts = (cst, none)
    ∧ VirtualSerialPair.create cst m = (cst, none)
    ∧ VirtualSerialPair.remove cst names = (cst, none)
    ∧ ((VirtualSerialPair.start VirtualSerialPair.mkController openpty
          openSerial).1.virtualPortsNum < 2 →
        (VirtualSerialPair.start VirtualSerialPair.mkController openpty
          openSerial).1.running = false
        ∧ (VirtualSerialPair.start VirtualSerialPair.mkController openpty
          openSerial).1.serialPorts = []
        ∧ (VirtualSerialPair.start VirtualSerialPair.mkController openpty
          openSerial).1.externalPorts = []) := by
  refine ⟨rfl, rfl, rfl, ?_⟩
  intro h
  have hdef : VirtualSerialPair.start VirtualSerialPair.mkController openpty
      openSerial
      = if (VirtualSerialNetwork.start VirtualSerialPair.mkController openpty
          openSerial).1.virtualPortsNum < 2 then
          ((VirtualSerialNetwork.stop
            (VirtualSerialNetwork.start VirtualSerialPair.mkController openpty
              openSerial).1).1,
           (VirtualSerialNetwork.start VirtualSerialPair.mkController openpty
              openSerial).2)
        else
          VirtualSerialNetwork.start VirtualSerialPair.mkController openpty
            openSerial := rfl
  by_cases hlt : (VirtualSerialNetwork.start VirtualSerialPair.mkController
      openpty openSerial).1.virtualPortsNum < 2
  · rw [hdef, if_pos hlt]
    exact ⟨rfl, rfl, rfl⟩
  · rw [hdef, if_neg hlt] at h
    exact absurd h hlt

/-- C9 witness: a factory that always fails creates zero of the two
requested ports, and the pair start leaves a stopped, empty network. -/
theorem pair_disabled_ops_and_teardown_witness :
    VirtualSerialPair.add ⟨true, [], 2, ["a"]⟩ [⟨1, "X"⟩]
        = (⟨true, [], 2, ["a"]⟩, none)
    ∧ (VirtualSerialPair.start VirtualSerialPair.mkController (fun _ => none)
        (fun _ => none)).1.running = false
    ∧ (VirtualSerialPair.start VirtualSerialPair.mkController (fun _ => none)
        (fun _ => none)).1.serialPorts = []
    ∧ (VirtualSerialPair.start VirtualSerialPair.mkController (fun _ => none)
        (fun _ => none)).1.externalPorts = [] := by
  have h := pair_disabled_ops_and_teardown ⟨true, [], 2, ["a"]⟩ [⟨1, "X"⟩] 0
    [] (fun _ => none) (fun _ => none)
  exact ⟨h.1, h.2.2.2 (by decide)⟩

/-- C10 counterexample: the claim asserts that every controller
operation preserves duplicate-freeness of the port-name list for
every sequence of worker responses. create does not: a running
controller already knowing name a, receiving one OK response for a
new virtual port that reuses name a (the injected factory chooses
slave names, so the response sequence is within the quantification of
the claim), appends it without deduplication, leaving the name list
with a twice. -/
theorem create_duplicate_counterexample :
    ((⟨true, [], 1, ["a"]⟩ : ControllerState).serialPorts.Nodup)
    ∧ ¬ ((VirtualSerialNetwork.create ⟨true, [], 1, ["a"]⟩ ⟨[], [], []⟩ 1
        (fun _ => some (7, "a"))).cst.serialPorts.Nodup) := by
  decide

/-- C10 amended: construction, start, add, remove and stop always
leave a duplicate-free port-name list (the last four rebuild it
through a set); create merely appends the received OK names, so it
preserves duplicate-freeness exactly when those names are pairwise
distinct and not already present — which fresh pty slave names are. -/
theorem controller_port_names_nodup (cst cst2 : ControllerState)
    (wst : WorkerState) (exts : List ExtDescriptor) (pn m : Int)
    (names : List String) (openpty : Nat → Option (Nat × String))
    (openSerial : String → Option Nat) (closeOk : String → Bool)
    (hnd : cst.serialPorts.Nodup) :
    (VirtualSerialNetwork.mkController pn exts).serialPorts.Nodup
    ∧ (VirtualSerialNetwork.start cst2 openpty openSerial).1.serialPorts.Nodup
    ∧ (VirtualSerialNetwork.add cst wst exts openSerial).cst.serialPorts.Nodup
    ∧ (VirtualSerialNetwork.remove cst wst names closeOk).cst.serialPorts.Nodup
    ∧ (VirtualSerialNetwork.stop cst).1.serialPorts.Nodup
    ∧ ((okNames (VirtualSerialNetwork.create cst wst m openpty).resps).Nodup →
        (∀ a ∈ okNames (VirtualSerialNetwork.create cst wst m openpty).resps,
          a ∉ cst.serialPorts) →
        (VirtualSerialNetwork.create cst wst m openpty).cst.serialPorts.Nodup) := by
  refine ⟨List.nodup_nil, List.nodup_dedup _, ?_, ?_, ?_, ?_⟩
  · by_cases hr : cst.running = true
    · simp only [VirtualSerialNetwork.add, hr, if_true]
      exact List.nodup_dedup _
    · have hr' : cst.running = false := by
        cases h : cst.running
        · rfl
        · exact absurd h hr
      simp [VirtualSerialNetwork.add, hr']
      exact hnd
  · by_cases hr : cst.running = true
    · simp only [VirtualSerialNetwork.remove, hr, if_true]
      exact List.Nodup.filter _ (List.nodup_dedup _)
    · have hr' : cst.running = false := by
        cases h : cst.running
        · rfl
        · exact absurd h hr
      simp [VirtualSerialNetwork.remove, hr']
      exact hnd
  · by_cases hr : cst.running = true
    · simp [VirtualSerialNetwork.stop, hr]
    · have hr' : cst.running = false := by
        cases h : cst.running
        · rfl
        · exact absurd h hr
      simp [VirtualSerialNetwork.stop, hr']
      exact hnd
  · intro hok hfresh
    by_cases hr : cst.running = true
    · simp only [VirtualSerialNetwork.create, hr, if_true] at hok hfresh ⊢
      refine List.Nodup.append hnd hok ?_
      exact List.disjoint_right.mpr hfresh
    · have hr' : cst.running = false := by
        cases h : cst.running
        · rfl
        · exact absurd h hr
      simp [VirtualSerialNetwork.create, hr']
      exact hnd

/-- C10 amended witness: a create on a running controller knowing a,
receiving one OK for the fresh name b, stays duplicate-free; the
other operations instantiated concretely stay duplicate-free as
well. -/
theorem controller_port_names_nodup_witness :
    (VirtualSerialNetwork.mkController 2 []).serialPorts.Nodup
    ∧ (VirtualSerialNetwork.add ⟨true, [], 1, ["a"]⟩ ⟨[], [], []⟩ []
        (fun _ => none)).cst.serialPorts.Nodup
    ∧ (VirtualSerialNetwork.create ⟨true, [], 1, ["a"]⟩ ⟨[], [], []⟩ 1
        (fun _ => some (7, "b"))).cst.serialPorts.Nodup := by
  have h := controller_port_names_nodup ⟨true, [], 1, ["a"]⟩ ⟨false, [], 0, []⟩
    ⟨[], [], []⟩ [] 2 1 [] (fun _ => some (7, "b")) (fun _ => none)
    (fun _ => true) (by decide)
  exact ⟨h.1, h.2.2.1, h.2.2.2.2.2 (by decide) (by decide)⟩

/-- C4 witness: two ports, factory succeeding with distinct
descriptors 10, 11 and distinct names. -/
theorem start_port_count_witness :
    ((VirtualSerialNetwork.start (VirtualSerialNetwork.mkController ((2 : Nat) : Int) [])
        (fun i => some (10 + i, if i = 0 then "ptyA" else "ptyB"))
        (fun _ => none)).1.serialPorts.length ≤ 2)
    ∧ (VirtualSerialNetwork.start (VirtualSerialNetwork.mkController ((2 : Nat) : Int) [])
        (fun i => some (10 + i, if i = 0 then "ptyA" else "ptyB"))
        (fun _ => none)).1.serialPorts.length = 2 := by
  have h := start_port_count 2
    (fun i => some (10 + i, if i = 0 then "ptyA" else "ptyB")) (fun _ => none)
  exact ⟨h.1, h.2 (fun i => 10 + i) (fun i => if i = 0 then "ptyA" else "ptyB")
    (fun i _ => rfl) (fun i j _ _ hne => by show 10 + i ≠ 10 + j; omega)
    (fun i j hi hj hne => by
      interval_cases i <;> interval_cases j <;>
        first | exact absurd rfl hne | decide)⟩

end NtsHardwareSerial
